import Mathlib

/-!
Shallow embedding of the quantitative core of the investment-research
application: the DCF engine, the peer percentile ranker, the fair-value
aggregator (services/valuation_calculator.py) and the technical-indicator
engine (services/market_data_service.py).

Python floats are modelled by exact rationals; where the source relies on
pandas/NumPy IEEE-754 special values (NaN, infinities) a dedicated carrier
type is used.  Scalar Python division by zero raises ZeroDivisionError,
which the source catches and turns into an error dictionary; the embedding
returns the corresponding error value at exactly those points.
-/

/-- Statement row label used by calculate_dcf. -/
def lblOperatingCashFlow : String := "Operating Cash Flow"

/-- Statement row label used by calculate_dcf. -/
def lblCapitalExpenditure : String := "Capital Expenditure"

/-- Statement row label used by calculate_dcf. -/
def lblTotalDebt : String := "Total Debt"

/-- Statement row label used by calculate_dcf. -/
def lblCash : String := "Cash"

/-- Error message returned by calculate_dcf when the cash-flow statement is empty. -/
def errNoCashFlow : String := "No cash flow data available"

/-- Error message produced when a scalar float division by zero is caught
by the except-branch of calculate_dcf. -/
def errDivByZero : String := "DCF calculation failed: float division by zero"

/-- A financial statement: line-item labels mapped to period values,
most recent period first (a pandas DataFrame indexed by label).  The
DataFrame test `.empty` corresponds to `rows.isEmpty`. -/
structure Statement where
  rows : List (String × List ℚ)
  deriving DecidableEq

/-- A statement with no data at all (`DataFrame.empty` is true). -/
def emptyStatement : Statement := ⟨[]⟩

/-- Value of a statement line: first (most recent) entry of the labelled
row, 0 when the label is missing or the row has no entries.  Mirrors
`cash_flow.loc[label].iloc[0] if ... else 0` guarded by a label-membership
test. -/
def lineValue (s : Statement) (label : String) : ℚ :=
  match s.rows.lookup label with
  | some vs => vs.headD 0
  | none => 0

/-- The assumptions sub-dictionary of a DCF result. -/
structure DcfAssumptions where
  growth_rate : ℚ
  discount_rate : ℚ
  risk_free_rate : ℚ
  market_risk_premium : ℚ
  deriving DecidableEq

/-- The result dictionary of calculate_dcf on its success path. -/
structure DcfOut where
  dcf_value_per_share : ℚ
  current_price : ℚ
  upside_potential : ℚ
  enterprise_value : ℚ
  equity_value : ℚ
  free_cash_flow : ℚ
  terminal_value : ℚ
  assumptions : DcfAssumptions
  deriving DecidableEq

/-- Success projection of an Except value (the caller's test for the
absence of the error key in the returned dictionary). -/
def okValue {ε α : Type} : Except ε α → Option α
  | .ok a => some a
  | .error _ => none

/-- Present value of the five projected cash-flow years: the loop
`for year in range(1, 6): pv_fcf += fcf*(1+g)**year / (1+d)**year`. -/
def pvFcf (fcf g d : ℚ) : ℚ :=
  ((List.range 5).map (fun i => fcf * (1 + g) ^ (i + 1) / (1 + d) ^ (i + 1))).sum

/-- ValuationCalculator.calculate_dcf, with the data-provider results
(ticker.cashflow, ticker.balance_sheet, info dictionary entries) passed as
arguments.  The two error branches correspond to the explicit empty-data
check and to the ZeroDivisionError raised by the scalar divisions at the
terminal-value and discounting steps (caught by the source's
except-branch). -/
def calculate_dcf (cash_flow balance_sheet : Statement)
    (sharesOutstanding currentPrice : Option ℚ)
    (growth_rate discount_rate : ℚ) : Except String DcfOut :=
  if cash_flow.rows.isEmpty then .error errNoCashFlow
  else
    let operating_cf := lineValue cash_flow lblOperatingCashFlow
    let capex := |lineValue cash_flow lblCapitalExpenditure|
    let fcf := operating_cf - capex
    if discount_rate - growth_rate = 0 then .error errDivByZero
    else if 1 + discount_rate = 0 then .error errDivByZero
    else
      let terminal_value := fcf * (1 + growth_rate) / (discount_rate - growth_rate)
      let pv := pvFcf fcf growth_rate discount_rate
      let enterprise_value := pv + terminal_value / (1 + discount_rate) ^ 5
      let total_debt := lineValue balance_sheet lblTotalDebt
      let cash := lineValue balance_sheet lblCash
      let equity_value := enterprise_value - total_debt + cash
      let shares_outstanding := sharesOutstanding.getD 1
      let per_share_value := if 0 < shares_outstanding then equity_value / shares_outstanding else 0
      let current_price := currentPrice.getD 0
      .ok { dcf_value_per_share := per_share_value
            current_price := current_price
            upside_potential :=
              if 0 < current_price then (per_share_value - current_price) / current_price else 0
            enterprise_value := enterprise_value
            equity_value := equity_value
            free_cash_flow := fcf
            terminal_value := terminal_value
            assumptions :=
              { growth_rate := growth_rate
                discount_rate := discount_rate
                risk_free_rate := 1 / 25
                market_risk_premium := 3 / 50 } }

/-- A cash-flow statement whose most recent operating cash flow is 100 and
which has no capital-expenditure row, so the free cash flow is 100. -/
def cf100 : Statement := ⟨[(lblOperatingCashFlow, [100])]⟩

/-- C9: when the cash-flow statement is missing entirely, calculate_dcf
returns the insufficient-data error as the whole result, never a zeroed
DcfOut, whatever the other inputs are. -/
theorem dcf_missing_cash_flow_is_error (bs : Statement) (sh pr : Option ℚ) (g d : ℚ) :
    calculate_dcf emptyStatement bs sh pr g d = .error errNoCashFlow := rfl

theorem lineValue_cf100_ocf : lineValue cf100 lblOperatingCashFlow = 100 := rfl

theorem lineValue_cf100_capex : lineValue cf100 lblCapitalExpenditure = 0 := rfl

theorem lineValue_empty (label : String) : lineValue emptyStatement label = 0 := rfl

theorem cf100_rows_ne_empty : cf100.rows.isEmpty = false := rfl

/-- C1: the source does not guard the terminal-value division.  With
growth_rate 0.10 strictly greater than discount_rate 0.08 and free cash
flow 100, calculate_dcf returns a DcfOut value (terminal value -5500, a
nonsensical negative perpetuity) instead of failing with an
InvalidAssumption error. -/
theorem dcf_returns_value_when_discount_below_growth :
    (okValue (calculate_dcf cf100 emptyStatement none none (1/10) (2/25))).map
      DcfOut.terminal_value = some (-5500) := by
  norm_num [calculate_dcf, cf100_rows_ne_empty, lineValue_cf100_ocf,
    lineValue_cf100_capex, lineValue_empty, okValue, pvFcf, List.range_succ]

theorem pvFcf_example_value : pvFcf 100 (1/20) (1/10) = 561503775/1288408 := by
  norm_num [pvFcf, List.range_succ]

theorem sum_Icc_example_value :
    (∑ y ∈ Finset.Icc 1 5, (100:ℚ) * (1 + 1/20) ^ y / (1 + 1/10) ^ y) = 561503775/1288408 := by
  rw [Finset.sum_Icc_succ_top (by norm_num), Finset.sum_Icc_succ_top (by norm_num),
      Finset.sum_Icc_succ_top (by norm_num), Finset.sum_Icc_succ_top (by norm_num),
      Finset.Icc_self, Finset.sum_singleton]
  norm_num

/-- C2 counterexample: for growth 0.05, discount 0.10 and free cash flow
100 the five-year present value is 561503775/1288408, which is below 436 —
not approximately 454.92 as claimed — and the enterprise value is
2241503775/1288408, below 1740, not approximately 1758.79. -/
theorem dcf_example_approximations_are_off :
    pvFcf 100 (1/20) (1/10) < 436 ∧
    (okValue (calculate_dcf cf100 emptyStatement none none (1/20) (1/10))).map
      DcfOut.enterprise_value = some (2241503775/1288408) ∧
    (2241503775/1288408 : ℚ) < 1740 := by
  refine ⟨by rw [pvFcf_example_value]; norm_num, ?_, by norm_num⟩
  norm_num [calculate_dcf, cf100_rows_ne_empty, lineValue_cf100_ocf,
    lineValue_cf100_capex, lineValue_empty, okValue, pvFcf_example_value]

/-- C2 (amended): for growth 0.05, discount 0.10 and free cash flow 100,
calculate_dcf produces terminal value exactly 2100, a five-year present
value equal to the sum over y = 1..5 of 100*(1.05)^y/(1.10)^y (which is
approximately 435.81, between 435.8 and 435.9), and an enterprise value
equal to that present value plus 2100/(1.10)^5 (approximately 1739.75,
between 1739.7 and 1739.8). -/
theorem dcf_projection_example :
    (okValue (calculate_dcf cf100 emptyStatement none none (1/20) (1/10))).map
      DcfOut.terminal_value = some 2100 ∧
    pvFcf 100 (1/20) (1/10) =
      ∑ y ∈ Finset.Icc 1 5, (100:ℚ) * (1 + 1/20) ^ y / (1 + 1/10) ^ y ∧
    (okValue (calculate_dcf cf100 emptyStatement none none (1/20) (1/10))).map
      DcfOut.enterprise_value = some (pvFcf 100 (1/20) (1/10) + 2100 / (1 + 1/10) ^ 5) ∧
    (4358/10 : ℚ) < pvFcf 100 (1/20) (1/10) ∧ pvFcf 100 (1/20) (1/10) < 4359/10 ∧
    (17397/10 : ℚ) < pvFcf 100 (1/20) (1/10) + 2100 / (1 + 1/10) ^ 5 ∧
    pvFcf 100 (1/20) (1/10) + 2100 / (1 + 1/10) ^ 5 < 17398/10 := by
  refine ⟨?_, by rw [pvFcf_example_value, sum_Icc_example_value], ?_, ?_, ?_, ?_, ?_⟩ <;>
    norm_num [calculate_dcf, cf100_rows_ne_empty, lineValue_cf100_ocf,
      lineValue_cf100_capex, lineValue_empty, okValue, pvFcf_example_value]

/-- The six metric keys ranked by _calculate_percentiles. -/
inductive Metric where
  | pe_ratio
  | pb_ratio
  | ps_ratio
  | ev_ebitda
  | roe
  | roa
  deriving DecidableEq

/-- A peer metric record: `peer.get(metric)` for each ranked metric. -/
def PeerRecord : Type := Metric → Option ℚ

/-- Eligibility filter applied to one peer's value for one metric:
`peer.get(metric) is not None and peer[metric] > 0`. -/
def eligValue (o : Option ℚ) : Option ℚ :=
  match o with
  | some x => if 0 < x then some x else none
  | none => none

/-- The peer values collected for one metric's ranking. -/
def eligibleValues (peers : List PeerRecord) (m : Metric) : List ℚ :=
  peers.filterMap (fun p => eligValue (p m))

/-- Ordered insertion into an ascending list. -/
def insertSorted (x : ℚ) : List ℚ → List ℚ
  | [] => [x]
  | y :: ys => if x ≤ y then x :: y :: ys else y :: insertSorted x ys

/-- Ascending sort (`peer_values.sort()`): on plain rational values the
stable ascending sort produces exactly this sequence, since equal values
are indistinguishable. -/
def sortAsc (l : List ℚ) : List ℚ := l.foldr insertSorted []

/-- Percentile of the subject value within the eligible peer values:
append the subject value, sort ascending, take the index of the value's
first occurrence, divide by the count and scale to 100. -/
def percentileOf (v : ℚ) (peerValues : List ℚ) : ℚ :=
  let sorted := sortAsc (peerValues ++ [v])
  ((sorted.indexOf v : ℕ) : ℚ) / ((sorted.length : ℕ) : ℚ) * 100

/-- One entry of the dictionary built by
ValuationCalculator._calculate_percentiles: absent when the company lacks
the metric or when no peer has a present positive value for it. -/
def calculate_percentiles (company : Metric → Option ℚ) (peers : List PeerRecord)
    (m : Metric) : Option ℚ :=
  match company m with
  | none => none
  | some v =>
      let pv := eligibleValues peers m
      if pv.isEmpty then none else some (percentileOf v pv)

theorem length_insertSorted (x : ℚ) (l : List ℚ) :
    (insertSorted x l).length = l.length + 1 := by
  induction l with
  | nil => rfl
  | cons y ys ih => by_cases h : x ≤ y <;> simp [insertSorted, h, ih]

theorem length_sortAsc (l : List ℚ) : (sortAsc l).length = l.length := by
  induction l with
  | nil => rfl
  | cons y ys ih => simp [sortAsc, length_insertSorted] at ih ⊢; omega

/-- Company metrics with P/E 10 and every other metric absent. -/
def subjectPe10 : Metric → Option ℚ :=
  fun m => match m with
  | .pe_ratio => some 10
  | _ => none

/-- A peer whose value is q for every metric. -/
def peerConst (q : ℚ) : PeerRecord := fun _ => some q

/-- Peers carrying the values 5, 15 and 20. -/
def peersPe : List PeerRecord := [peerConst 5, peerConst 15, peerConst 20]

/-- A peer whose value is -3 for every metric (never eligible). -/
def peerNeg3 : PeerRecord := fun _ => some (-3)

/-- C3: for subject value 10 and peer values 5, 15 and 20 the percentile
for that metric is 25; in general the percentile equals the index of the
subject value's first occurrence in the ascending sort of the eligible
peer values with the subject value appended, divided by the total count,
times 100. -/
theorem percentile_rank_formula :
    calculate_percentiles subjectPe10 peersPe Metric.pe_ratio = some 25 ∧
    ∀ (v : ℚ) (l : List ℚ),
      percentileOf v l = (((sortAsc (l ++ [v])).indexOf v : ℕ) : ℚ) / ((l.length : ℚ) + 1) * 100 := by
  constructor
  · have h1 : eligibleValues peersPe Metric.pe_ratio = [5, 15, 20] := by decide
    have h2 : sortAsc [5, 15, 20, 10] = [5, 10, 15, 20] := by decide
    have h3 : ([5, 10, 15, 20] : List ℚ).indexOf 10 = 1 := by decide
    simp [calculate_percentiles, subjectPe10, h1, percentileOf, h2, h3]
    norm_num
  · intro v l
    simp only [percentileOf, length_sortAsc, List.length_append, List.length_singleton]
    norm_cast

/-- C5: a peer with an absent or non-positive value for a metric is
excluded from that metric's ranking only; a peer's present positive value
for a metric always participates in that metric's ranking; and a metric
with no eligible peer value yields no percentile entry at all. -/
theorem percentile_per_metric_exclusion :
    (∀ (company : Metric → Option ℚ) (peers : List PeerRecord) (m : Metric),
        eligibleValues peers m = [] → calculate_percentiles company peers m = none) ∧
    (∀ (company : Metric → Option ℚ) (pre post : List PeerRecord) (p : PeerRecord) (m : Metric),
        eligValue (p m) = none →
          calculate_percentiles company (pre ++ p :: post) m =
            calculate_percentiles company (pre ++ post) m) ∧
    ∀ (peers : List PeerRecord) (p : PeerRecord) (m : Metric) (x : ℚ),
        p ∈ peers → p m = some x → 0 < x → x ∈ eligibleValues peers m := by
  refine ⟨?_, ?_, ?_⟩
  · intro c peers m h
    cases hc : c m <;> simp [calculate_percentiles, hc, h]
  · intro c pre post p m h
    have he : eligibleValues (pre ++ p :: post) m = eligibleValues (pre ++ post) m := by
      simp [eligibleValues, List.filterMap_append, List.filterMap_cons, h]
    cases hc : c m <;> simp [calculate_percentiles, hc, he]
  · intro peers p m x hp hm hx
    simp only [eligibleValues, List.mem_filterMap]
    exact ⟨p, hp, by simp [eligValue, hm, hx]⟩

/-- C5 witness: the three parts of the per-metric exclusion theorem at
concrete inputs — no peers at all, a peer with value -3 dropped from a
ranking it cannot join, and the value 5 participating in the P/E
ranking. -/
theorem percentile_per_metric_exclusion_witness :
    calculate_percentiles subjectPe10 [] Metric.pe_ratio = none ∧
    calculate_percentiles subjectPe10 ([peerConst 5] ++ peerNeg3 :: [peerConst 15])
        Metric.pe_ratio =
      calculate_percentiles subjectPe10 ([peerConst 5] ++ [peerConst 15]) Metric.pe_ratio ∧
    (5 : ℚ) ∈ eligibleValues peersPe Metric.pe_ratio :=
  ⟨percentile_per_metric_exclusion.1 subjectPe10 [] Metric.pe_ratio rfl,
   percentile_per_metric_exclusion.2.1 subjectPe10 [peerConst 5] [peerConst 15] peerNeg3
     Metric.pe_ratio (by decide),
   percentile_per_metric_exclusion.2.2 peersPe (peerConst 5) Metric.pe_ratio 5
     (by simp [peersPe]) rfl (by norm_num)⟩

/-- Confidence tier reported with three or more candidate estimates. -/
def strHigh : String := "High"

/-- Confidence tier reported with fewer than three candidate estimates. -/
def strMedium : String := "Medium"

/-- Error message of calculate_fair_value_range for an empty candidate set. -/
def errInsufficientFairValue : String := "Insufficient data for fair value calculation"

/-- The fair_value_range sub-dictionary. -/
structure FairValueRange where
  minimum : ℚ
  maximum : ℚ
  average : ℚ
  deriving DecidableEq

/-- The success dictionary of calculate_fair_value_range. -/
structure FairValueResult where
  fair_value_range : FairValueRange
  valuation_methods : ℕ
  confidence_level : String
  deriving DecidableEq

/-- Final aggregation step of calculate_fair_value_range over the
collected candidate estimates: `if valuations: ... else error`. -/
def fair_value_from (valuations : List ℚ) : Except String FairValueResult :=
  match valuations with
  | [] => .error errInsufficientFairValue
  | v :: vs =>
      .ok { fair_value_range :=
              { minimum := vs.foldl min v
                maximum := vs.foldl max v
                average := (v :: vs).sum / (((v :: vs).length : ℕ) : ℚ) }
            valuation_methods := (v :: vs).length
            confidence_level := if 3 ≤ (v :: vs).length then strHigh else strMedium }

/-- ValuationCalculator.calculate_fair_value_range: collects the DCF
per-share estimate when the DCF call succeeded.  The peer-based block of
the source computes an average P/E ratio but appends nothing to the
candidate list (the append is commented out), so the peer inputs cannot
contribute candidates. -/
def calculate_fair_value_range (dcf_result : Except String DcfOut)
    (_peer_pe_ratios : List (Option ℚ)) : Except String FairValueResult :=
  let valuations : List ℚ :=
    match dcf_result with
    | .ok r => [r.dcf_value_per_share]
    | .error _ => []
  fair_value_from valuations

/-- C8: the aggregation step fails with the insufficient-data error on an
empty candidate set, and otherwise reports confidence High exactly when at
least three candidates contributed and Medium exactly otherwise. -/
theorem fair_value_confidence_tiers :
    fair_value_from [] = .error errInsufficientFairValue ∧
    ∀ vs : List ℚ, vs ≠ [] → ∃ r, fair_value_from vs = .ok r ∧
      (r.confidence_level = strHigh ↔ 3 ≤ vs.length) ∧
      (r.confidence_level = strMedium ↔ vs.length < 3) := by
  constructor
  · rfl
  · intro vs hvs
    match vs with
    | v :: t =>
        have hmh : strMedium ≠ strHigh := by decide
        have hhm : strHigh ≠ strMedium := by decide
        refine ⟨_, rfl, ?_, ?_⟩ <;>
          by_cases h3 : 3 ≤ (v :: t).length <;>
          (simp only [List.length_cons] at h3 ⊢
           simp [fair_value_from, h3, hmh, hhm] <;> omega)

/-- C8 witness: with the single candidate 10 the aggregation succeeds and
the confidence tier is Medium, not High. -/
theorem fair_value_confidence_tiers_witness :
    ∃ r, fair_value_from [10] = .ok r ∧
      (r.confidence_level = strHigh ↔ 3 ≤ ([(10 : ℚ)] : List ℚ).length) ∧
      (r.confidence_level = strMedium ↔ ([(10 : ℚ)] : List ℚ).length < 3) :=
  fair_value_confidence_tiers.2 [10] (by decide)

/-- C10: whenever calculate_fair_value_range succeeds, the only candidate
is the DCF per-share value: minimum, maximum and average coincide with it,
exactly one valuation method is counted, and the confidence is Medium —
the High tier is unreachable. -/
theorem fair_value_single_method :
    ∀ (dcf : Except String DcfOut) (pe : List (Option ℚ)) (r : FairValueResult),
      calculate_fair_value_range dcf pe = .ok r →
        (∃ d, dcf = .ok d ∧ r.fair_value_range.minimum = d.dcf_value_per_share) ∧
        r.fair_value_range.maximum = r.fair_value_range.minimum ∧
        r.fair_value_range.average = r.fair_value_range.minimum ∧
        r.valuation_methods = 1 ∧
        r.confidence_level = strMedium ∧ r.confidence_level ≠ strHigh := by
  intro dcf pe r h
  cases dcf with
  | error e => simp [calculate_fair_value_range, fair_value_from] at h
  | ok d =>
      simp only [calculate_fair_value_range, fair_value_from, Except.ok.injEq] at h
      subst h
      refine ⟨⟨d, rfl, rfl⟩, rfl, ?_, rfl, ?_, ?_⟩
      · simp [div_one]
      · norm_num
      · have hmh : strMedium ≠ strHigh := by decide
        simp [hmh]

/-- A concrete successful DCF output with per-share value 42. -/
def dcf42 : DcfOut :=
  { dcf_value_per_share := 42
    current_price := 0
    upside_potential := 0
    enterprise_value := 0
    equity_value := 0
    free_cash_flow := 0
    terminal_value := 0
    assumptions :=
      { growth_rate := 1 / 20
        discount_rate := 1 / 10
        risk_free_rate := 1 / 25
        market_risk_premium := 3 / 50 } }

/-- The fair-value result produced from the single candidate 42. -/
def fvr42 : FairValueResult :=
  { fair_value_range := { minimum := 42, maximum := 42, average := 42 }
    valuation_methods := 1
    confidence_level := strMedium }

/-- C10 witness: aggregating the successful DCF output with per-share
value 42 yields the degenerate single-method range. -/
theorem fair_value_single_method_witness :
    (∃ d, (Except.ok dcf42 : Except String DcfOut) = .ok d ∧
        fvr42.fair_value_range.minimum = d.dcf_value_per_share) ∧
    fvr42.fair_value_range.maximum = fvr42.fair_value_range.minimum ∧
    fvr42.fair_value_range.average = fvr42.fair_value_range.minimum ∧
    fvr42.valuation_methods = 1 ∧
    fvr42.confidence_level = strMedium ∧ fvr42.confidence_level ≠ strHigh :=
  fair_value_single_method (.ok dcf42) [] fvr42
    (by norm_num [calculate_fair_value_range, fair_value_from, dcf42, fvr42])

/-- C4 counterexample: with sharesOutstanding 0 calculate_dcf returns a
DcfOut whose per-share value is 0 rather than an InsufficientData error,
and with sharesOutstanding missing it also returns a DcfOut (the source
defaults the missing entry to 1). -/
theorem dcf_zero_shares_returns_value :
    (okValue (calculate_dcf cf100 emptyStatement (some 0) none (1/20) (1/10))).map
      DcfOut.dcf_value_per_share = some 0 ∧
    (okValue (calculate_dcf cf100 emptyStatement none none (1/20) (1/10))).isSome = true := by
  constructor <;>
    norm_num [calculate_dcf, cf100_rows_ne_empty, lineValue_cf100_ocf,
      lineValue_cf100_capex, lineValue_empty, okValue]

/-- C4 (amended): on the success path, a non-positive sharesOutstanding
yields a DcfOut whose per-share value is the fallback 0 (no error), and a
missing sharesOutstanding is defaulted to 1, making the whole computation
identical to one with sharesOutstanding 1. -/
theorem dcf_nonpositive_shares_fallback (cf bs : Statement) (pr : Option ℚ) (g d sh : ℚ)
    (hne : cf.rows.isEmpty = false) (hdg : ¬d - g = 0) (hd1 : ¬1 + d = 0) (hsh : sh ≤ 0) :
    (okValue (calculate_dcf cf bs (some sh) pr g d)).map DcfOut.dcf_value_per_share = some 0 ∧
    calculate_dcf cf bs none pr g d = calculate_dcf cf bs (some 1) pr g d := by
  constructor
  · have hlt : ¬(0 : ℚ) < sh := not_lt.mpr hsh
    simp [calculate_dcf, hne, hdg, hd1, hlt, okValue]
  · rfl

/-- C4 witness: the amended statement at free cash flow 100, growth 0.05,
discount 0.10 and sharesOutstanding 0. -/
theorem dcf_nonpositive_shares_fallback_witness :
    (okValue (calculate_dcf cf100 emptyStatement (some 0) none (1/20) (1/10))).map
      DcfOut.dcf_value_per_share = some 0 ∧
    calculate_dcf cf100 emptyStatement none none (1/20) (1/10) =
      calculate_dcf cf100 emptyStatement (some 1) none (1/20) (1/10) :=
  dcf_nonpositive_shares_fallback cf100 emptyStatement none (1/20) (1/10) 0
    cf100_rows_ne_empty (by norm_num) (by norm_num) (by norm_num)

/-- IEEE-style value of a pandas float cell: a rational number, one of
the two infinities, or NaN.  Rationals carry no signed zero; the source
never divides an infinity by zero, the only place the sign of a zero
could matter. -/
inductive PFloat where
  | num (q : ℚ)
  | inf
  | ninf
  | nan
  deriving DecidableEq

/-- IEEE addition: NaN propagates, opposite infinities give NaN. -/
def padd : PFloat → PFloat → PFloat
  | .nan, _ => .nan
  | _, .nan => .nan
  | .num a, .num b => .num (a + b)
  | .inf, .ninf => .nan
  | .ninf, .inf => .nan
  | .inf, _ => .inf
  | _, .inf => .inf
  | .ninf, _ => .ninf
  | _, .ninf => .ninf

/-- IEEE negation. -/
def pneg : PFloat → PFloat
  | .num a => .num (-a)
  | .inf => .ninf
  | .ninf => .inf
  | .nan => .nan

/-- IEEE subtraction. -/
def psub (a b : PFloat) : PFloat := padd a (pneg b)

/-- IEEE multiplication: NaN propagates, infinity times zero is NaN. -/
def pmul : PFloat → PFloat → PFloat
  | .nan, _ => .nan
  | _, .nan => .nan
  | .num a, .num b => .num (a * b)
  | .inf, .num b => if b = 0 then .nan else if 0 < b then .inf else .ninf
  | .num a, .inf => if a = 0 then .nan else if 0 < a then .inf else .ninf
  | .ninf, .num b => if b = 0 then .nan else if 0 < b then .ninf else .inf
  | .num a, .ninf => if a = 0 then .nan else if 0 < a then .ninf else .inf
  | .inf, .inf => .inf
  | .ninf, .ninf => .inf
  | .inf, .ninf => .ninf
  | .ninf, .inf => .ninf

/-- NumPy elementwise division: 0/0 is NaN and x/0 is a signed infinity
(pandas series division does not raise). -/
def pdiv : PFloat → PFloat → PFloat
  | .nan, _ => .nan
  | _, .nan => .nan
  | .num a, .num b =>
      if b = 0 then (if a = 0 then .nan else if 0 < a then .inf else .ninf)
      else .num (a / b)
  | .num _, .inf => .num 0
  | .num _, .ninf => .num 0
  | .inf, .num b => if 0 ≤ b then .inf else .ninf
  | .ninf, .num b => if 0 ≤ b then .ninf else .inf
  | .inf, .inf => .nan
  | .inf, .ninf => .nan
  | .ninf, .inf => .nan
  | .ninf, .ninf => .nan

/-- IEEE strict greater-than: every comparison against NaN is false. -/
def pgt : PFloat → PFloat → Bool
  | .nan, _ => false
  | _, .nan => false
  | .num a, .num b => decide (b < a)
  | .inf, .inf => false
  | .inf, _ => true
  | .ninf, _ => false
  | .num _, .inf => false
  | .num _, .ninf => true

/-- IEEE strict less-than. -/
def plt (a b : PFloat) : Bool := pgt b a

/-- Python `float(x) if not pd.isna(x) else d`. -/
def pfallback (x : PFloat) (d : ℚ) : PFloat := if x = .nan then .num d else x

/-- Last entry of `rolling(window=w).mean()`: NaN until w samples exist,
then the mean of the last w values. -/
def rollingMeanLast (w : ℕ) (xs : List ℚ) : PFloat :=
  if xs.length < w then .nan
  else .num ((xs.drop (xs.length - w)).sum / ((w : ℕ) : ℚ))

/-- Pairwise differences of consecutive entries (`Series.diff()` without
its leading NaN entry). -/
def diffs : List ℚ → List ℚ
  | [] => []
  | [_] => []
  | a :: b :: t => (b - a) :: diffs (b :: t)

/-- Per-bar gains `delta.where(delta > 0, 0)`: the leading NaN of diff()
becomes 0 because a comparison against NaN is false. -/
def gainSeries (closes : List ℚ) : List ℚ :=
  match closes with
  | [] => []
  | _ :: _ => 0 :: (diffs closes).map (fun d => if 0 < d then d else 0)

/-- Per-bar losses `-delta.where(delta < 0, 0)`. -/
def lossSeries (closes : List ℚ) : List ℚ :=
  match closes with
  | [] => []
  | _ :: _ => 0 :: (diffs closes).map (fun d => if d < 0 then -d else 0)

/-- Last entry of the 14-period rolling mean of gains. -/
def avgGainLast (closes : List ℚ) : PFloat := rollingMeanLast 14 (gainSeries closes)

/-- Last entry of the 14-period rolling mean of losses. -/
def avgLossLast (closes : List ℚ) : PFloat := rollingMeanLast 14 (lossSeries closes)

/-- Last entry of `rs = gain / loss` (elementwise series division). -/
def rsLast (closes : List ℚ) : PFloat := pdiv (avgGainLast closes) (avgLossLast closes)

/-- Last entry of `rsi = 100 - (100 / (1 + rs))`. -/
def rsiLast (closes : List ℚ) : PFloat :=
  psub (.num 100) (pdiv (.num 100) (padd (.num 1) (rsLast closes)))

/-- Smoothing factor of `ewm(span=s)`. -/
def ewmAlpha (span : ℕ) : ℚ := 2 / ((span : ℚ) + 1)

/-- The weights (1-alpha)^i of `ewm(span).mean()` with the pandas default
adjust=True. -/
def ewmWeights (span n : ℕ) : List ℚ :=
  (List.range n).map (fun i => (1 - ewmAlpha span) ^ i)

/-- Value of `ewm(span).mean()` at the last position of xs: the weighted
average of the reversed samples under the adjust=True weights. -/
def ewmLastVal (span : ℕ) (xs : List ℚ) : ℚ :=
  (List.zipWith (fun w x => w * x) (ewmWeights span xs.length) xs.reverse).sum /
    (ewmWeights span xs.length).sum

/-- The full `ewm(span).mean()` series. -/
def ewmSeries (span : ℕ) (xs : List ℚ) : List ℚ :=
  (List.range xs.length).map (fun t => ewmLastVal span (xs.take (t + 1)))

/-- The MACD line `ewm(12).mean() - ewm(26).mean()`. -/
def macdSeries (closes : List ℚ) : List ℚ :=
  List.zipWith (fun a b => a - b) (ewmSeries 12 closes) (ewmSeries 26 closes)

/-- iloc[-1] of a float series: NaN on an empty series. -/
def lastPF (xs : List ℚ) : PFloat :=
  match xs.getLast? with
  | some q => .num q
  | none => .nan

/-- Last entry of the MACD line. -/
def macdLast (closes : List ℚ) : PFloat := lastPF (macdSeries closes)

/-- Last entry of the signal line, the 9-span EWM of the MACD line. -/
def signalLast (closes : List ℚ) : PFloat := lastPF (ewmSeries 9 (macdSeries closes))

/-- Sample variance with ddof=1, the pandas default for `rolling.std()`. -/
def sampleVariance (xs : List ℚ) : ℚ :=
  (xs.map (fun x => (x - xs.sum / ((xs.length : ℕ) : ℚ)) ^ 2)).sum /
    (((xs.length : ℕ) : ℚ) - 1)

/-- Last entry of `rolling(20).std()`: NaN until 20 samples exist; the
square root of the sample variance is supplied by the caller because a
float square root has no exact rational counterpart. -/
def bbStdLast (sqrtFn : ℚ → ℚ) (closes : List ℚ) : PFloat :=
  if closes.length < 20 then .nan
  else .num (sqrtFn (sampleVariance (closes.drop (closes.length - 20))))

/-- Classification string of the indicator snapshot. -/
def strAbove : String := "Above"

/-- Classification string of the indicator snapshot. -/
def strBelow : String := "Below"

/-- Classification string of the indicator snapshot. -/
def strOverbought : String := "Overbought"

/-- Classification string of the indicator snapshot. -/
def strOversold : String := "Oversold"

/-- Classification string of the indicator snapshot. -/
def strNeutral : String := "Neutral"

/-- Classification string of the indicator snapshot. -/
def strBullish : String := "Bullish"

/-- Classification string of the indicator snapshot. -/
def strBearish : String := "Bearish"

/-- Classification string of the indicator snapshot. -/
def strUpper : String := "Upper"

/-- Classification string of the indicator snapshot. -/
def strLower : String := "Lower"

/-- Classification string of the indicator snapshot. -/
def strMiddle : String := "Middle"

/-- The moving_averages sub-dictionary. -/
structure MovingAveragesOut where
  sma_20 : PFloat
  sma_50 : PFloat
  sma_200 : PFloat
  price_vs_sma_20 : String
  price_vs_sma_50 : String
  price_vs_sma_200 : String
  deriving DecidableEq

/-- The rsi sub-dictionary. -/
structure RsiOut where
  value : PFloat
  interpretation : String
  deriving DecidableEq

/-- The macd sub-dictionary. -/
structure MacdOut where
  value : PFloat
  signal : PFloat
  interpretation : String
  deriving DecidableEq

/-- The bollinger_bands sub-dictionary. -/
structure BollingerOut where
  upper : PFloat
  lower : PFloat
  position : String
  deriving DecidableEq

/-- The full indicator snapshot. -/
structure TechnicalIndicators where
  moving_averages : MovingAveragesOut
  rsi : RsiOut
  macd : MacdOut
  bollinger_bands : BollingerOut
  deriving DecidableEq

/-- `close_prices.iloc[-1]` on a nonempty series. -/
def currentClose (closes : List ℚ) : ℚ := closes.getLastD 0

/-- The moving-average block: the numeric fields fall back to 0 on NaN,
and the price-versus-average classifications compare against the raw
(possibly NaN) rolling means. -/
def maOutput (closes : List ℚ) : MovingAveragesOut :=
  { sma_20 := pfallback (rollingMeanLast 20 closes) 0
    sma_50 := pfallback (rollingMeanLast 50 closes) 0
    sma_200 := pfallback (rollingMeanLast 200 closes) 0
    price_vs_sma_20 :=
      if pgt (.num (currentClose closes)) (rollingMeanLast 20 closes) then strAbove else strBelow
    price_vs_sma_50 :=
      if pgt (.num (currentClose closes)) (rollingMeanLast 50 closes) then strAbove else strBelow
    price_vs_sma_200 :=
      if pgt (.num (currentClose closes)) (rollingMeanLast 200 closes) then strAbove else strBelow }

/-- The RSI block: the value falls back to 50 on NaN, the interpretation
compares the raw value. -/
def rsiOutput (closes : List ℚ) : RsiOut :=
  { value := pfallback (rsiLast closes) 50
    interpretation :=
      if pgt (rsiLast closes) (.num 70) then strOverbought
      else if plt (rsiLast closes) (.num 30) then strOversold
      else strNeutral }

/-- The MACD block: numeric fields fall back to 0 on NaN. -/
def macdOutput (closes : List ℚ) : MacdOut :=
  { value := pfallback (macdLast closes) 0
    signal := pfallback (signalLast closes) 0
    interpretation :=
      if pgt (macdLast closes) (signalLast closes) then strBullish else strBearish }

/-- The Bollinger block: bands fall back to 0 on NaN, the position
classification compares against the raw (possibly NaN) bands. -/
def bollingerOutput (sqrtFn : ℚ → ℚ) (closes : List ℚ) : BollingerOut :=
  let middle := rollingMeanLast 20 closes
  let upper := padd middle (pmul (bbStdLast sqrtFn closes) (.num 2))
  let lower := psub middle (pmul (bbStdLast sqrtFn closes) (.num 2))
  { upper := pfallback upper 0
    lower := pfallback lower 0
    position :=
      if pgt (.num (currentClose closes)) upper then strUpper
      else if plt (.num (currentClose closes)) lower then strLower
      else strMiddle }

/-- MarketDataService._calculate_technical_indicators: an empty price
history returns the empty dictionary, modelled as none. -/
def calculate_technical_indicators (sqrtFn : ℚ → ℚ) (closes : List ℚ) :
    Option TechnicalIndicators :=
  if closes.isEmpty then none
  else some
    { moving_averages := maOutput closes
      rsi := rsiOutput closes
      macd := macdOutput closes
      bollinger_bands := bollingerOutput sqrtFn closes }

theorem length_diffs (l : List ℚ) : (diffs l).length = l.length - 1 := by
  induction l with
  | nil => rfl
  | cons a t ih =>
      cases t with
      | nil => rfl
      | cons b t2 => simp [diffs] at ih ⊢; omega

theorem gainSeries_length (l : List ℚ) (h : l ≠ []) : (gainSeries l).length = l.length := by
  match l with
  | a :: t => simp [gainSeries, length_diffs]

theorem lossSeries_length (l : List ℚ) (h : l ≠ []) : (lossSeries l).length = l.length := by
  match l with
  | a :: t => simp [lossSeries, length_diffs]

theorem gainSeries_nonneg (l : List ℚ) : ∀ x ∈ gainSeries l, 0 ≤ x := by
  intro x hx
  match l with
  | [] => simp [gainSeries] at hx
  | a :: t =>
      simp only [gainSeries, List.mem_cons, List.mem_map] at hx
      rcases hx with hx0 | ⟨d, _, rfl⟩
      · simp [hx0]
      · by_cases hd : 0 < d <;> simp [hd]
        exact le_of_lt hd

theorem lossSeries_nonneg (l : List ℚ) : ∀ x ∈ lossSeries l, 0 ≤ x := by
  intro x hx
  match l with
  | [] => simp [lossSeries] at hx
  | a :: t =>
      simp only [lossSeries, List.mem_cons, List.mem_map] at hx
      rcases hx with hx0 | ⟨d, _, rfl⟩
      · simp [hx0]
      · by_cases hd : d < 0 <;> simp [hd]
        linarith

theorem avgGainLast_num (closes : List ℚ) (h14 : 14 ≤ closes.length) :
    ∃ g, avgGainLast closes = .num g ∧ 0 ≤ g := by
  have hne : closes ≠ [] := by
    intro h
    rw [h] at h14
    simp at h14
  have hlen := gainSeries_length closes hne
  have hnl : ¬(gainSeries closes).length < 14 := by omega
  refine ⟨((gainSeries closes).drop ((gainSeries closes).length - 14)).sum / ((14 : ℕ) : ℚ),
    by simp [avgGainLast, rollingMeanLast, hnl], ?_⟩
  apply div_nonneg
  · exact List.sum_nonneg fun x hx =>
      gainSeries_nonneg closes x (List.drop_subset _ _ hx)
  · norm_num

theorem avgLossLast_num (closes : List ℚ) (h14 : 14 ≤ closes.length) :
    ∃ l, avgLossLast closes = .num l ∧ 0 ≤ l := by
  have hne : closes ≠ [] := by
    intro h
    rw [h] at h14
    simp at h14
  have hlen := lossSeries_length closes hne
  have hnl : ¬(lossSeries closes).length < 14 := by omega
  refine ⟨((lossSeries closes).drop ((lossSeries closes).length - 14)).sum / ((14 : ℕ) : ℚ),
    by simp [avgLossLast, rollingMeanLast, hnl], ?_⟩
  apply div_nonneg
  · exact List.sum_nonneg fun x hx =>
      lossSeries_nonneg closes x (List.drop_subset _ _ hx)
  · norm_num

theorem length_ewmSeries (span : ℕ) (xs : List ℚ) :
    (ewmSeries span xs).length = xs.length := by
  simp [ewmSeries]

theorem length_macdSeries (closes : List ℚ) :
    (macdSeries closes).length = closes.length := by
  simp [macdSeries, length_ewmSeries]

theorem lastPF_num (xs : List ℚ) (h : xs ≠ []) : ∃ q, lastPF xs = .num q := by
  have hs : xs.getLast?.isSome := by simp [List.getLast?_isSome, h]
  obtain ⟨q, hq⟩ := Option.isSome_iff_exists.mp hs
  exact ⟨q, by simp [lastPF, hq]⟩

theorem macdLast_num (closes : List ℚ) (h : closes ≠ []) :
    ∃ q, macdLast closes = .num q := by
  apply lastPF_num
  intro hnil
  have := length_macdSeries closes
  rw [hnil] at this
  simp at this
  exact h (List.length_eq_zero.mp this.symm)

theorem signalLast_num (closes : List ℚ) (h : closes ≠ []) :
    ∃ q, signalLast closes = .num q := by
  apply lastPF_num
  intro hnil
  have h1 := length_ewmSeries 9 (macdSeries closes)
  rw [hnil] at h1
  have h2 := length_macdSeries closes
  simp at h1
  rw [← h1] at h2
  exact h (List.length_eq_zero.mp h2.symm)

theorem isEmpty_false_of_ne_nil (l : List ℚ) (h : l ≠ []) : l.isEmpty = false := by
  cases l with
  | nil => exact absurd rfl h
  | cons a t => rfl

/-- A short price series of five bars. -/
def closes5 : List ℚ := [1, 2, 3, 4, 5]

/-- A fifteen-bar price series with both gains and losses. -/
def closesW : List ℚ := [10, 11, 12, 11, 13, 14, 13, 15, 16, 15, 17, 18, 17, 19, 20]

/-- C6 counterexample: on a five-bar series the SMA20 numeric output does
fall back to 0, but the price-versus-SMA20 classification falls back to
Below — a comparison against NaN is false — which is not a neutral or
midpoint classification. -/
theorem short_series_sma_classification_below :
    (calculate_technical_indicators (fun q => q) closes5).map
      (fun r => r.moving_averages.price_vs_sma_20) = some strBelow ∧
    strBelow ≠ strNeutral ∧ strBelow ≠ strMiddle := by
  refine ⟨?_, by decide, by decide⟩
  simp [calculate_technical_indicators, closes5, maOutput, rollingMeanLast, pgt,
    currentClose, pfallback]

/-- C6 (amended): an empty series yields the empty snapshot; on any
nonempty series of fewer than 20 bars no fault occurs, the SMA20 numeric
output and both Bollinger bands fall back to 0, the Bollinger position to
Middle, while the price-versus-SMA20 classification falls back to Below;
the RSI and MACD blocks are those computed from their own windows, the
MACD value and signal being genuine numbers for every nonempty series. -/
theorem tech_indicators_short_series_fallback :
    (∀ sqrtFn : ℚ → ℚ, calculate_technical_indicators sqrtFn [] = none) ∧
    ∀ (sqrtFn : ℚ → ℚ) (closes : List ℚ), closes ≠ [] → closes.length < 20 →
      ∃ r, calculate_technical_indicators sqrtFn closes = some r ∧
        r.moving_averages.sma_20 = .num 0 ∧
        r.bollinger_bands.upper = .num 0 ∧
        r.bollinger_bands.lower = .num 0 ∧
        r.bollinger_bands.position = strMiddle ∧
        r.moving_averages.price_vs_sma_20 = strBelow ∧
        r.rsi = rsiOutput closes ∧
        r.macd = macdOutput closes ∧
        ∃ m s : ℚ, r.macd.value = .num m ∧ r.macd.signal = .num s := by
  constructor
  · intro f
    rfl
  · intro f closes hne hlen
    have hie : closes.isEmpty = false := isEmpty_false_of_ne_nil closes hne
    have hsma : rollingMeanLast 20 closes = .nan := by simp [rollingMeanLast, hlen]
    have hbb : bbStdLast f closes = .nan := by simp [bbStdLast, hlen]
    obtain ⟨m, hm⟩ := macdLast_num closes hne
    obtain ⟨s, hs⟩ := signalLast_num closes hne
    refine ⟨{ moving_averages := maOutput closes
              rsi := rsiOutput closes
              macd := macdOutput closes
              bollinger_bands := bollingerOutput f closes },
      by simp [calculate_technical_indicators, hie], ?_, ?_, ?_, ?_, ?_, rfl, rfl,
      ⟨m, s, ?_, ?_⟩⟩
    · simp [maOutput, hsma, pfallback]
    · simp [bollingerOutput, hsma, hbb, padd, pmul, pfallback]
    · simp [bollingerOutput, hsma, hbb, padd, pmul, psub, pneg, pfallback]
    · simp [bollingerOutput, hsma, hbb, padd, pmul, psub, pneg, pgt, plt]
    · simp [maOutput, hsma, pgt]
    · simp [macdOutput, hm, pfallback]
    · simp [macdOutput, hs, pfallback]

/-- C6 witness: the fallback theorem at the empty series and at a
concrete fifteen-bar series. -/
theorem tech_indicators_short_series_fallback_witness :
    calculate_technical_indicators (fun q => q) [] = none ∧
    ∃ r, calculate_technical_indicators (fun q => q) closesW = some r ∧
      r.moving_averages.sma_20 = .num 0 ∧
      r.bollinger_bands.upper = .num 0 ∧
      r.bollinger_bands.lower = .num 0 ∧
      r.bollinger_bands.position = strMiddle ∧
      r.moving_averages.price_vs_sma_20 = strBelow ∧
      r.rsi = rsiOutput closesW ∧
      r.macd = macdOutput closesW ∧
      ∃ m s : ℚ, r.macd.value = .num m ∧ r.macd.signal = .num s :=
  ⟨tech_indicators_short_series_fallback.1 (fun q => q),
   tech_indicators_short_series_fallback.2 (fun q => q) closesW (by decide) (by decide)⟩

/-- A constant fifteen-bar price series. -/
def closesConst : List ℚ :=
  [100, 100, 100, 100, 100, 100, 100, 100, 100, 100, 100, 100, 100, 100, 100]

/-- C7 counterexample: on a constant fifteen-bar series the 14-period
average loss is zero, yet the reported RSI value is the NaN fallback 50,
not 100 — the average gain is zero as well, so rs is the NaN of 0/0. -/
theorem rsi_constant_series_value_50 :
    avgLossLast closesConst = .num 0 ∧
    (calculate_technical_indicators (fun q => q) closesConst).map (fun r => r.rsi.value) =
      some (.num 50) ∧
    PFloat.num 50 ≠ PFloat.num 100 := by
  refine ⟨?_, ?_, by decide⟩
  · norm_num [avgLossLast, lossSeries, closesConst, diffs, rollingMeanLast]
  · norm_num [calculate_technical_indicators, closesConst, rsiOutput, rsiLast, rsLast,
      avgGainLast, avgLossLast, gainSeries, lossSeries, diffs, rollingMeanLast,
      pdiv, padd, psub, pneg, pfallback]

theorem rsiLast_eval (closes : List ℚ) (g l : ℚ) (hg : avgGainLast closes = .num g)
    (hl : avgLossLast closes = .num l) (hln : l ≠ 0) (h1 : 1 + g / l ≠ 0) :
    rsiLast closes = .num (100 - 100 / (1 + g / l)) := by
  simp [rsiLast, rsLast, hg, hl, pdiv, hln, padd, psub, pneg, h1]
  ring

theorem rsiLast_inf_case (closes : List ℚ) (g : ℚ) (hg : avgGainLast closes = .num g)
    (hl : avgLossLast closes = .num 0) (hgpos : 0 < g) :
    rsiLast closes = .num 100 := by
  have hgne : g ≠ 0 := ne_of_gt hgpos
  simp [rsiLast, rsLast, hg, hl, pdiv, hgne, hgpos, padd, psub, pneg]

theorem rsiLast_nan_case (closes : List ℚ) (hg : avgGainLast closes = .num 0)
    (hl : avgLossLast closes = .num 0) : rsiLast closes = PFloat.nan := by
  simp [rsiLast, rsLast, hg, hl, pdiv, padd, psub, pneg]

/-- C7 (amended): on every series of at least 15 bars the reported RSI
value is a number in the closed interval 0 to 100; when the 14-period
average loss is zero and the average gain is positive the value is
exactly 100; when both averages are zero, rs is the NaN of 0/0 and the
reported value is the fallback 50. -/
theorem rsi_in_bounds (sqrtFn : ℚ → ℚ) (closes : List ℚ) (hlen : 15 ≤ closes.length) :
    ∃ r, calculate_technical_indicators sqrtFn closes = some r ∧
      (∃ q, r.rsi.value = .num q ∧ 0 ≤ q ∧ q ≤ 100) ∧
      (∀ g : ℚ, avgLossLast closes = .num 0 → avgGainLast closes = .num g → 0 < g →
        r.rsi.value = .num 100) ∧
      (avgLossLast closes = .num 0 → avgGainLast closes = .num 0 →
        r.rsi.value = .num 50) := by
  have hne : closes ≠ [] := by
    intro h
    rw [h] at hlen
    simp at hlen
  have hie : closes.isEmpty = false := isEmpty_false_of_ne_nil closes hne
  have h14 : 14 ≤ closes.length := by omega
  obtain ⟨g, hg, hg0⟩ := avgGainLast_num closes h14
  obtain ⟨l, hl, hl0⟩ := avgLossLast_num closes h14
  refine ⟨{ moving_averages := maOutput closes
            rsi := rsiOutput closes
            macd := macdOutput closes
            bollinger_bands := bollingerOutput sqrtFn closes },
    by simp [calculate_technical_indicators, hie], ?_⟩
  by_cases hlz : l = 0
  · subst hlz
    by_cases hgz : g = 0
    · have hv := rsiLast_nan_case closes (hgz ▸ hg) hl
      refine ⟨⟨50, by simp [rsiOutput, hv, pfallback], by norm_num, by norm_num⟩, ?_, ?_⟩
      · intro g' _ hg' hgpos
        rw [hg] at hg'
        simp at hg'
        rw [← hg', hgz] at hgpos
        exact absurd hgpos (lt_irrefl 0)
      · intro _ _
        simp [rsiOutput, hv, pfallback]
    · have hgpos : 0 < g := lt_of_le_of_ne hg0 (Ne.symm hgz)
      have hv := rsiLast_inf_case closes g hg hl hgpos
      refine ⟨⟨100, by simp [rsiOutput, hv, pfallback], by norm_num, by norm_num⟩, ?_, ?_⟩
      · intro g' _ _ _
        simp [rsiOutput, hv, pfallback]
      · intro _ hg'
        rw [hg] at hg'
        simp at hg'
        exact absurd hg' hgz
  · have hlpos : 0 < l := lt_of_le_of_ne hl0 (Ne.symm hlz)
    have hgl : 0 ≤ g / l := div_nonneg hg0 (le_of_lt hlpos)
    have h1 : (1 : ℚ) + g / l ≠ 0 := by positivity
    have hv := rsiLast_eval closes g l hg hl hlz h1
    have hle : 100 / (1 + g / l) ≤ 100 := div_le_self (by norm_num) (by linarith)
    have hpos : (0 : ℚ) < 100 / (1 + g / l) := by positivity
    refine ⟨⟨100 - 100 / (1 + g / l), by simp [rsiOutput, hv, pfallback],
      by linarith, by linarith⟩, ?_, ?_⟩
    · intro g' hl' _ _
      rw [hl] at hl'
      simp at hl'
      exact absurd hl' hlz
    · intro hl' _
      rw [hl] at hl'
      simp at hl'
      exact absurd hl' hlz

/-- C7 witness: the bound theorem at a concrete fifteen-bar series. -/
theorem rsi_in_bounds_witness :
    ∃ r, calculate_technical_indicators (fun q => q) closesW = some r ∧
      (∃ q, r.rsi.value = .num q ∧ 0 ≤ q ∧ q ≤ 100) ∧
      (∀ g : ℚ, avgLossLast closesW = .num 0 → avgGainLast closesW = .num g → 0 < g →
        r.rsi.value = .num 100) ∧
      (avgLossLast closesW = .num 0 → avgGainLast closesW = .num 0 →
        r.rsi.value = .num 50) :=
  rsi_in_bounds (fun q => q) closesW (by decide)
